import Mathlib

/-!
Verification of the Sentinel-2 image download utilities
(`funciones_sentinel_2.py`).

Python strings are modelled as `List Char` (`PyStr`): a Python `str` is a
sequence of code points, exactly a list of `Char`.  Python exceptions are
modelled by the explicit error type `PyError`; a computation that may raise
returns the filesystem state reached so far together with `Option PyError`
(`none` = normal return, `some e` = the exception `e` propagating), so that
side effects already performed before a raise are preserved, as in Python.
The local filesystem is a pure state `FS` (created directories and written
files); the S3 bucket is a list of objects, each a key together with
`Option` content, where `none` models an object whose byte download raises
(network/storage failure inside `bucket.download_file`).

The regular expression `(S2[AB]_MSI.{3}_\d+T\d+_N\d+_R\d+_T[a-zA-Z0-9]+)`
of `extract_imagename` is embedded as a deterministic maximal-munch
matcher: in this pattern every greedy `+`-class is followed by a literal
character outside the class, so maximal munch coincides with Python's
backtracking semantics (`\d` is modelled over the ASCII digits, `.` as any
character other than the newline, as in Python's default mode).
`re.search` tries start positions left to right, which `searchPattern`
mirrors.
-/

set_option maxRecDepth 4000

deriving instance DecidableEq for Except

namespace S2

/-- Python strings as sequences of code points. -/
abbrev PyStr := List Char

/-- The exceptions the modelled code can raise. -/
inductive PyError where
  | valueError : PyStr → PyError
  | fileNotFoundError : PyStr → PyError
  | keyError : PyStr → PyError
  | downloadError : PyStr → PyError
  deriving DecidableEq, Repr

/-- The message of an exception, as Python's `f"{e}"` renders it
(for `ValueError`/`FileNotFoundError` this is the constructor argument;
for a storage-client failure the text is the client's, modelled here from
the failing key). -/
def errStr : PyError → PyStr
  | PyError.valueError m => m
  | PyError.fileNotFoundError m => m
  | PyError.keyError m => m
  | PyError.downloadError k => "download error: ".data ++ k

/-- The literal `"/eodata/"` stripped by the downloader. -/
def eodata : PyStr := "/eodata/".data

/-- Embedding of `remove_prefix(string, prefix)`: strip `pre` when the
string starts with it (`string.startswith(prefix)`; `string[len(prefix):]`). -/
def remove_prefix (string pre : PyStr) : PyStr :=
  if pre.isPrefixOf string then string.drop pre.length else string

/-- Character class `[AB]` of the naming pattern. -/
def isAB (c : Char) : Bool := c == 'A' || c == 'B'

/-- The class matched by `.` (any character but a newline, Python default mode). -/
def notNewline (c : Char) : Bool := c != '\n'

/-- Character class `[a-zA-Z0-9]` of the tile code. -/
def isTileChar (c : Char) : Bool := c.isAlpha || c.isDigit

/-- Match a literal character sequence at the head of the input,
returning the rest. -/
def matchLit : PyStr → PyStr → Option PyStr
  | [], s => some s
  | _ :: _, [] => none
  | l :: ls, c :: s => if c = l then matchLit ls s else none

/-- Match one character of a class at the head of the input. -/
def matchClass (p : Char → Bool) : PyStr → Option PyStr
  | [] => none
  | c :: s => if p c then some s else none

/-- Greedy `+` of a character class: at least one character, then the
maximal run.  Faithful to the source pattern, where every `+`-class is
followed by a character outside the class, so no backtracking can occur. -/
def matchPlus (p : Char → Bool) : PyStr → Option PyStr
  | [] => none
  | c :: s => if p c then some (s.dropWhile p) else none

/-- Match the pattern `S2[AB]_MSI.{3}_\d+T\d+_N\d+_R\d+_T[a-zA-Z0-9]+`
at the start of the input, returning the input left after the match. -/
def matchPatternAt (s : PyStr) : Option PyStr :=
  (matchLit ['S', '2'] s).bind fun r0 =>
  (matchClass isAB r0).bind fun r1 =>
  (matchLit ['_', 'M', 'S', 'I'] r1).bind fun r2 =>
  (matchClass notNewline r2).bind fun r3 =>
  (matchClass notNewline r3).bind fun r4 =>
  (matchClass notNewline r4).bind fun r5 =>
  (matchLit ['_'] r5).bind fun r6 =>
  (matchPlus Char.isDigit r6).bind fun r7 =>
  (matchLit ['T'] r7).bind fun r8 =>
  (matchPlus Char.isDigit r8).bind fun r9 =>
  (matchLit ['_', 'N'] r9).bind fun r10 =>
  (matchPlus Char.isDigit r10).bind fun r11 =>
  (matchLit ['_', 'R'] r11).bind fun r12 =>
  (matchPlus Char.isDigit r12).bind fun r13 =>
  (matchLit ['_', 'T'] r13).bind fun r14 =>
  matchPlus isTileChar r14

/-- Embedding of `re.search` for the fixed pattern: try each start
position left to right; on the first success return the matched substring
(the consumed prefix at that position). -/
def searchPattern : PyStr → Option PyStr
  | [] => none
  | c :: s =>
    match matchPatternAt (c :: s) with
    | some rest => some ((c :: s).take ((c :: s).length - rest.length))
    | none => searchPattern s

/-- The `ValueError` message of `extract_imagename`. -/
def noMatchMsg : PyStr := "No match found for the pattern in the provided path.".data

/-- Embedding of `extract_imagename(path)`: the first regex match in the
path, or a `ValueError` when the pattern does not occur. -/
def extract_imagename (path : PyStr) : Except PyError PyStr :=
  match searchPattern path with
  | some m => Except.ok m
  | none => Except.error (PyError.valueError noMatchMsg)

/-- Embedding of `os.path.join(a, b)` (POSIX, two arguments). -/
def path_join (a b : PyStr) : PyStr :=
  if ['/'].isPrefixOf b then b
  else if a = [] then b
  else if a.getLast? = some '/' then a ++ b
  else a ++ ['/'] ++ b

/-- Embedding of `os.path.basename(p)`: the part after the last slash. -/
def basename (p : PyStr) : PyStr :=
  (p.reverse.takeWhile (fun c => c != '/')).reverse

/-- The local filesystem state: the directories created and the files
written (a written file shadows any earlier write to the same path). -/
structure FS where
  dirs : List PyStr
  files : List (PyStr × PyStr)
  deriving DecidableEq, Repr

/-- Embedding of `os.makedirs(p, exist_ok=True)` for the created leaf. -/
def makedirs (fs : FS) (p : PyStr) : FS :=
  if p ∈ fs.dirs then fs else { fs with dirs := p :: fs.dirs }

/-- Writing a local file, overwriting any previous content at that path. -/
def writeFile (fs : FS) (p data : PyStr) : FS :=
  { fs with files := (p, data) :: fs.files }

/-- The current content of the file at `p`, if any. -/
def fileContents (fs : FS) (p : PyStr) : Option PyStr :=
  (fs.files.find? (fun kv => kv.1 == p)).map (fun kv => kv.2)

/-- One stored object: its key, and its bytes (`none` models an object
whose download raises inside the storage client). -/
structure S3Object where
  key : PyStr
  content : Option PyStr
  deriving DecidableEq, Repr

/-- Embedding of `bucket.objects.filter(Prefix=product)`: the objects
whose key starts with the prefix. -/
def listObjects (bucket : List S3Object) (pre : PyStr) : List S3Object :=
  bucket.filter (fun o => pre.isPrefixOf o.key)

/-- One iteration of `download`'s object loop: extract the image name from
the key (may raise `ValueError` before touching the filesystem), create
the target subdirectory, then download the object's bytes into it. -/
def downloadObject (fs : FS) (target : PyStr) (o : S3Object) : FS × Option PyError :=
  match extract_imagename o.key with
  | Except.error e => (fs, some e)
  | Except.ok imagename =>
    let imagepath := path_join target imagename
    let fs1 := makedirs fs imagepath
    match o.content with
    | some data => (writeFile fs1 (path_join imagepath (basename o.key)) data, none)
    | none => (fs1, some (PyError.downloadError o.key))

/-- The `for file in files:` loop of `download`: process objects in order;
the first exception propagates with the filesystem state reached so far. -/
def downloadLoop (target : PyStr) : FS → List S3Object → FS × Option PyError
  | fs, [] => (fs, none)
  | fs, o :: rest =>
    match downloadObject fs target o with
    | (fs1, none) => downloadLoop target fs1 rest
    | (fs1, some e) => (fs1, some e)

/-- Embedding of `download(bucket, product, target)`: list the objects
under the prefix, raise `FileNotFoundError` when none, else run the loop. -/
def download (bucket : List S3Object) (product target : PyStr) (fs : FS) :
    FS × Option PyError :=
  let files := listObjects bucket product
  if files.isEmpty then
    (fs, some (PyError.fileNotFoundError ("No se encontraron archivos para ".data ++ product)))
  else
    downloadLoop target fs files

/-- The state threaded through `download_copernicus_images`: the
filesystem and the printed lines. -/
structure RunState where
  fs : FS
  log : List PyStr
  deriving DecidableEq, Repr

/-- The progress line `f"Descargando {s3path} (renglón {idx})..."`. -/
def progressMsg (p : PyStr) (idx : Nat) : PyStr :=
  "Descargando ".data ++ p ++ " (renglón ".data ++ (toString idx).data ++ ")...".data

/-- The error line `f"Error al descargar {s3path}: {e}"`. -/
def errorMsg (p : PyStr) (e : PyError) : PyStr :=
  "Error al descargar ".data ++ p ++ ": ".data ++ errStr e

/-- One row of `download_copernicus_images`: strip the prefix, print
progress, and try the download, catching any exception into an error line. -/
def processRow (bucket : List S3Object) (target : PyStr) (st : RunState)
    (idx : Nat) (s3path : PyStr) : RunState :=
  let p := remove_prefix s3path eodata
  let log1 := st.log ++ [progressMsg p idx]
  match download bucket p target st.fs with
  | (fs1, none) => { fs := fs1, log := log1 }
  | (fs1, some e) => { fs := fs1, log := log1 ++ [errorMsg p e] }

/-- The row loop `for idx, s3path in enumerate(df["S3Path"][start_row:],
start=start_row)`. -/
def downloadRows (bucket : List S3Object) (target : PyStr) :
    Nat → RunState → List PyStr → RunState
  | _, st, [] => st
  | idx, st, p :: rest =>
    downloadRows bucket target (idx + 1) (processRow bucket target st idx p) rest

/-- Embedding of `download_copernicus_images(s3, df, start_row,
target_directory)`: `s3` maps a bucket name to its objects, `df` is the
table's `S3Path` column, `fs` the initial local filesystem. -/
def download_copernicus_images (s3 : PyStr → List S3Object) (df : List PyStr)
    (start_row : Nat) (target_directory : PyStr) (fs : FS) : RunState :=
  downloadRows (s3 "eodata".data) target_directory start_row
    { fs := fs, log := [] } (df.drop start_row)

/-- Embedding of the query-string assembly of
`get_copernicus_image_metadata`, exactly as the source concatenates it. -/
def get_copernicus_query (start_date end_date polygon collection : PyStr)
    (cloud_cover : Option Int) (product_type : Option PyStr) (srid : PyStr) : PyStr :=
  let query_url :=
    "https://catalogue.dataspace.copernicus.eu/odata/v1/Products?$filter=".data
      ++ "OData.CSC.Intersects(area=geography'SRID=".data ++ srid
      ++ ";POLYGON((".data ++ polygon ++ "))')".data
      ++ " and ContentDate/Start gt ".data ++ start_date
      ++ " and ContentDate/Start lt ".data ++ end_date
      ++ " and Collection/Name eq '".data ++ collection ++ "'".data
  let query_url :=
    match cloud_cover with
    | some cc =>
      query_url
        ++ " and Attributes/OData.CSC.DoubleAttribute/any(att:att/Name eq 'cloudCover' and att/OData.CSC.DoubleAttribute/Value lt ".data
        ++ (toString cc).data ++ ")".data
    | none => query_url
  let query_url :=
    match product_type with
    | some pt =>
      query_url
        ++ " and Attributes/OData.CSC.StringAttribute/any(att:att/Name eq 'productType' and att/OData.CSC.StringAttribute/Value eq '".data
        ++ pt ++ "')".data
    | none => query_url
  query_url

/-- One metadata row of the parsed JSON `value` array (attribute/value pairs). -/
abbrev Row := List (PyStr × PyStr)

/-- The message printed when the result table is empty. -/
def noImagesMsg : PyStr := "No se encontraron imágenes para los criterios especificados.".data

/-- Embedding of `get_copernicus_image_metadata`: build the query, give it
to the HTTP layer (`response`, a function from the query URL to the parsed
`value` array when present, `none` when the JSON has no `value` key), and
turn the rows into the result table, printing when it is empty.  The
returned pair is the table and the printed lines. -/
def get_copernicus_image_metadata (start_date end_date polygon collection : PyStr)
    (cloud_cover : Option Int) (product_type : Option PyStr) (srid : PyStr)
    (response : PyStr → Option (List Row)) : Except PyError (List Row × List PyStr) :=
  let query_url :=
    get_copernicus_query start_date end_date polygon collection cloud_cover product_type srid
  match response query_url with
  | none => Except.error (PyError.keyError "value".data)
  | some value =>
    if value.isEmpty then Except.ok (value, [noImagesMsg])
    else Except.ok (value, [])

/-!
### Specification-side descriptions

The definitions below restate, in declarative form, what the spec says
about the naming pattern, the query clauses, and the progress reporting;
the theorems relate them to the embedded code.
-/

/-- Skeleton of the Sentinel-2 naming pattern: `S2`, one letter, `_MSI`,
three characters, `_`, digits, `T`, digits, `_N`, digits, `_R`, digits,
`_T`, tile code. -/
def shapeOf (ab : Char) (x3 d1 d2 d3 d4 tile : PyStr) : PyStr :=
  'S' :: '2' :: ab :: '_' :: 'M' :: 'S' :: 'I' ::
    (x3 ++ '_' :: (d1 ++ 'T' :: (d2 ++ '_' :: 'N' :: (d3 ++ '_' :: 'R' :: (d4 ++ '_' :: 'T' :: tile)))))

/-- The side conditions on the variable parts of the pattern: the letter
is `A` or `B`, the wildcard block has exactly three non-newline
characters, the four digit runs are nonempty, and the tile code is a
nonempty alphanumeric run. -/
def GoodRuns (ab : Char) (x3 d1 d2 d3 d4 tile : PyStr) : Prop :=
  isAB ab = true ∧
  x3.length = 3 ∧ (∀ c ∈ x3, notNewline c = true) ∧
  d1 ≠ [] ∧ (∀ c ∈ d1, c.isDigit = true) ∧
  d2 ≠ [] ∧ (∀ c ∈ d2, c.isDigit = true) ∧
  d3 ≠ [] ∧ (∀ c ∈ d3, c.isDigit = true) ∧
  d4 ≠ [] ∧ (∀ c ∈ d4, c.isDigit = true) ∧
  tile ≠ [] ∧ (∀ c ∈ tile, isTileChar c = true)

/-- A string is exactly one instance of the naming pattern. -/
def IsShape (m : PyStr) : Prop :=
  ∃ ab x3 d1 d2 d3 d4 tile,
    GoodRuns ab x3 d1 d2 d3 d4 tile ∧ m = shapeOf ab x3 d1 d2 d3 d4 tile

/-- The pattern matches at the start of `s`. -/
def HasMatch (s : PyStr) : Prop := ∃ m t, s = m ++ t ∧ IsShape m

/-- The head of `r`, when present, is outside the class `p`. -/
def headNot (p : Char → Bool) (r : PyStr) : Prop :=
  ∀ c, r.head? = some c → p c = false

/-- `m` is the substring of `s` a leftmost-greedy search for the pattern
matches: `m` is an instance of the pattern occurring in `s`, no
occurrence starts earlier, and no longer instance starts at the same
position. -/
def FirstMatch (s m : PyStr) : Prop :=
  ∃ pre t, s = pre ++ m ++ t ∧ IsShape m ∧
    (∀ j, j < pre.length → ¬ HasMatch (s.drop j)) ∧
    (∀ m2 t2, s.drop pre.length = m2 ++ t2 → IsShape m2 → m2.length ≤ m.length)

/-- The fixed part of the catalog URL, up to the filter parameter. -/
def filter_base : PyStr :=
  "https://catalogue.dataspace.copernicus.eu/odata/v1/Products?$filter=".data

/-- The spatial-intersection clause of the filter. -/
def intersects_clause (polygon srid : PyStr) : PyStr :=
  "OData.CSC.Intersects(area=geography'SRID=".data ++ srid
    ++ ";POLYGON((".data ++ polygon ++ "))')".data

/-- The strict lower bound on the content start time. -/
def start_gt_clause (start_date : PyStr) : PyStr :=
  " and ContentDate/Start gt ".data ++ start_date

/-- The strict upper bound on the content start time. -/
def end_lt_clause (end_date : PyStr) : PyStr :=
  " and ContentDate/Start lt ".data ++ end_date

/-- The equality match on the collection name. -/
def collection_clause (collection : PyStr) : PyStr :=
  " and Collection/Name eq '".data ++ collection ++ "'".data

/-- The existential filter `cloudCover < value`. -/
def cloud_cover_clause (cc : Int) : PyStr :=
  " and Attributes/OData.CSC.DoubleAttribute/any(att:att/Name eq 'cloudCover' and att/OData.CSC.DoubleAttribute/Value lt ".data
    ++ (toString cc).data ++ ")".data

/-- The existential filter `productType = value`. -/
def product_type_clause (pt : PyStr) : PyStr :=
  " and Attributes/OData.CSC.StringAttribute/any(att:att/Name eq 'productType' and att/OData.CSC.StringAttribute/Value eq '".data
    ++ pt ++ "')".data

/-- An optional clause contributes its text when present and nothing
otherwise. -/
def opt_clause {α : Type} (f : α → PyStr) : Option α → PyStr
  | some a => f a
  | none => []

/-- Whether a printed line is a progress line. -/
def isProgress (l : PyStr) : Bool := "Descargando ".data.isPrefixOf l

/-- The progress lines the spec expects for the rows of `df` from
position `i` on: one line per row, in table order, reporting the row's
original position. -/
def expected_progress : Nat → List PyStr → List PyStr
  | _, [] => []
  | i, p :: rest => progressMsg ( remove_prefix p eodata) i :: expected_progress (i + 1) rest

/-! ### Lemmas on the single-atom matchers -/

theorem matchLit_eq_some (l : PyStr) :
    ∀ s r, matchLit l s = some r ↔ s = l ++ r := by
  induction l with
  | nil => intro s r; simp [matchLit]
  | cons a l ih =>
    intro s r
    cases s with
    | nil => simp [matchLit]
    | cons c s =>
      by_cases h : c = a
      · subst h; simp [matchLit, ih]
      · simp [matchLit, h]

theorem matchClass_eq_some (p : Char → Bool) (s r : PyStr) :
    matchClass p s = some r ↔ ∃ c, p c = true ∧ s = c :: r := by
  cases s with
  | nil => simp [matchClass]
  | cons c s =>
    simp only [matchClass]
    by_cases h : p c = true
    · rw [if_pos h]
      constructor
      · intro h2; injection h2 with h2; subst h2; exact ⟨c, h, rfl⟩
      · rintro ⟨c2, hc2, heq⟩
        injection heq with h1 h2
        subst h1; subst h2; rfl
    · rw [if_neg h]
      constructor
      · intro h2; cases h2
      · rintro ⟨c2, hc2, heq⟩
        injection heq with h1 h2
        subst h1; exact absurd hc2 h

theorem dropWhile_all (p : Char → Bool) (l r : PyStr)
    (h : ∀ c ∈ l, p c = true) :
    List.dropWhile p (l ++ r) = List.dropWhile p r := by
  induction l with
  | nil => rfl
  | cons a l ih =>
    have ha : p a = true := h a (by simp)
    simp only [List.cons_append, List.dropWhile_cons, ha, if_true]
    exact ih (fun c hc => h c (by simp [hc]))

theorem dropWhile_headNot (p : Char → Bool) (r : PyStr) (h : headNot p r) :
    List.dropWhile p r = r := by
  cases r with
  | nil => rfl
  | cons a r =>
    have ha : p a = false := h a rfl
    simp [List.dropWhile_cons, ha]

theorem headNot_dropWhile (p : Char → Bool) (l : PyStr) :
    headNot p (List.dropWhile p l) := by
  intro c hc
  have := List.head?_dropWhile_not p l
  rw [hc] at this
  exact this

theorem matchPlus_sound (p : Char → Bool) (s r : PyStr)
    (h : matchPlus p s = some r) :
    ∃ run, run ≠ [] ∧ (∀ c ∈ run, p c = true) ∧ s = run ++ r ∧ headNot p r := by
  cases s with
  | nil => simp [matchPlus] at h
  | cons c s =>
    by_cases hc : p c
    · simp only [matchPlus, hc, if_true, Option.some.injEq] at h
      subst h
      refine ⟨c :: s.takeWhile p, by simp, ?_, ?_, headNot_dropWhile p s⟩
      · intro d hd
        rcases List.mem_cons.mp hd with rfl | hd
        · exact hc
        · exact List.mem_takeWhile_imp hd
      · simp [List.takeWhile_append_dropWhile]
    · simp [matchPlus, hc] at h

theorem matchPlus_all (p : Char → Bool) (run r : PyStr)
    (hne : run ≠ []) (hall : ∀ c ∈ run, p c = true) :
    matchPlus p (run ++ r) = some (List.dropWhile p r) := by
  cases run with
  | nil => exact absurd rfl hne
  | cons c run =>
    have hc : p c = true := hall c (by simp)
    simp only [List.cons_append, matchPlus, hc, if_true, Option.some.injEq]
    exact dropWhile_all p run r (fun d hd => hall d (by simp [hd]))

theorem takeWhile_run (p : Char → Bool) (d : PyStr) (x : Char) (r : PyStr)
    (hall : ∀ c ∈ d, p c = true) (hx : p x = false) :
    List.takeWhile p (d ++ x :: r) = d := by
  induction d with
  | nil => simp [List.takeWhile_cons, hx]
  | cons a d ih =>
    have ha : p a = true := hall a (by simp)
    simp only [List.cons_append, List.takeWhile_cons, ha, if_true]
    rw [ih (fun c hc => hall c (by simp [hc]))]

theorem dropWhile_cons_false (p : Char → Bool) (x : Char) (r : PyStr)
    (hx : p x = false) : List.dropWhile p (x :: r) = x :: r := by
  simp [List.dropWhile_cons, hx]

theorem matchPlus_run (p : Char → Bool) (d : PyStr) (x : Char) (r : PyStr)
    (hne : d ≠ []) (hall : ∀ c ∈ d, p c = true) (hx : p x = false) :
    matchPlus p (d ++ x :: r) = some (x :: r) :=
  (matchPlus_all p d (x :: r) hne hall).trans
    (by rw [dropWhile_cons_false p x r hx])

/-! ### Soundness and completeness of the pattern matcher -/

theorem matchPatternAt_sound (s r : PyStr) (h : matchPatternAt s = some r) :
    ∃ m, s = m ++ r ∧ IsShape m ∧ headNot isTileChar r := by
  simp only [matchPatternAt, Option.bind_eq_some] at h
  obtain ⟨r0, h0, r1, h1, r2, h2, r3, h3, r4, h4, r5, h5, r6, h6, r7, h7, r8, h8,
    r9, h9, r10, h10, r11, h11, r12, h12, r13, h13, r14, h14, h15⟩ := h
  rw [matchLit_eq_some] at h0 h2 h6 h8 h10 h12 h14
  rw [matchClass_eq_some] at h1 h3 h4 h5
  obtain ⟨ab, hab, rfl⟩ := h1
  obtain ⟨a, hanl, rfl⟩ := h3
  obtain ⟨b, hbnl, rfl⟩ := h4
  obtain ⟨c, hcnl, rfl⟩ := h5
  obtain ⟨d1, hd1ne, hd1, rfl, -⟩ := matchPlus_sound _ _ _ h7
  obtain ⟨d2, hd2ne, hd2, rfl, -⟩ := matchPlus_sound _ _ _ h9
  obtain ⟨d3, hd3ne, hd3, rfl, -⟩ := matchPlus_sound _ _ _ h11
  obtain ⟨d4, hd4ne, hd4, rfl, -⟩ := matchPlus_sound _ _ _ h13
  obtain ⟨tile, htne, ht, rfl, hhn⟩ := matchPlus_sound _ _ _ h15
  subst h0 h2 h6 h8 h10 h12 h14
  refine ⟨shapeOf ab [a, b, c] d1 d2 d3 d4 tile, ?_, ?_, hhn⟩
  · simp [shapeOf, List.append_assoc]
  · refine ⟨ab, [a, b, c], d1, d2, d3, d4, tile,
      ⟨hab, rfl, ?_, hd1ne, hd1, hd2ne, hd2, hd3ne, hd3, hd4ne, hd4, htne, ht⟩, rfl⟩
    intro x hx
    simp only [List.mem_cons, List.not_mem_nil, or_false] at hx
    rcases hx with rfl | rfl | rfl
    exacts [hanl, hbnl, hcnl]

theorem matchPatternAt_complete (m t : PyStr) (h : IsShape m) :
    matchPatternAt (m ++ t) = some (List.dropWhile isTileChar t) := by
  obtain ⟨ab, x3, d1, d2, d3, d4, tile, hg, rfl⟩ := h
  obtain ⟨hab, hx3, hxnl, hd1ne, hd1, hd2ne, hd2, hd3ne, hd3, hd4ne, hd4, htne, ht⟩ := hg
  obtain ⟨a, b, c, rfl⟩ := List.length_eq_three.mp hx3
  have ha : notNewline a = true := hxnl a (by simp)
  have hb : notNewline b = true := hxnl b (by simp)
  have hc : notNewline c = true := hxnl c (by simp)
  have key : shapeOf ab [a, b, c] d1 d2 d3 d4 tile ++ t
      = 'S' :: '2' :: ab :: '_' :: 'M' :: 'S' :: 'I' :: a :: b :: c :: '_' ::
        (d1 ++ 'T' :: (d2 ++ '_' :: 'N' ::
          (d3 ++ '_' :: 'R' :: (d4 ++ '_' :: 'T' :: (tile ++ t))))) := by
    simp [shapeOf, List.append_assoc]
  rw [key]
  simp only [matchPatternAt, matchLit, matchClass, eq_self_iff_true, if_true,
    Option.some_bind, hab, ha, hb, hc]
  rw [matchPlus_run Char.isDigit d1 'T' _ hd1ne hd1 (by decide)]
  simp only [Option.some_bind, matchLit, eq_self_iff_true, if_true]
  rw [matchPlus_run Char.isDigit d2 '_' _ hd2ne hd2 (by decide)]
  simp only [Option.some_bind, matchLit, eq_self_iff_true, if_true]
  rw [matchPlus_run Char.isDigit d3 '_' _ hd3ne hd3 (by decide)]
  simp only [Option.some_bind, matchLit, eq_self_iff_true, if_true]
  rw [matchPlus_run Char.isDigit d4 '_' _ hd4ne hd4 (by decide)]
  simp only [Option.some_bind, matchLit, eq_self_iff_true, if_true]
  exact matchPlus_all isTileChar tile t htne ht

theorem shapeOf_append (ab : Char) (x3 d1 d2 d3 d4 tile e : PyStr) :
    shapeOf ab x3 d1 d2 d3 d4 tile ++ e = shapeOf ab x3 d1 d2 d3 d4 (tile ++ e) := by
  simp [shapeOf, List.append_assoc]

theorem shape_ne_nil (m : PyStr) (h : IsShape m) : m ≠ [] := by
  obtain ⟨ab, x3, d1, d2, d3, d4, tile, -, rfl⟩ := h
  simp [shapeOf]

/-- Peeling one forced run: a run of `p`-characters delimited by a fixed
character outside `p` is determined by the string it sits in. -/
theorem run_peel (p : Char → Bool) (d d2 : PyStr) (x : Char) (r r2 : PyStr)
    (hd : ∀ c ∈ d, p c = true) (hd2 : ∀ c ∈ d2, p c = true) (hx : p x = false)
    (h : d ++ x :: r = d2 ++ x :: r2) : d = d2 ∧ r = r2 := by
  have h1 : List.takeWhile p (d ++ x :: r) = d := takeWhile_run p d x r hd hx
  have h2 : List.takeWhile p (d2 ++ x :: r2) = d2 := takeWhile_run p d2 x r2 hd2 hx
  have hdd : d = d2 := by rw [← h1, ← h2, h]
  subst hdd
  have h3 := List.append_cancel_left h
  refine ⟨rfl, ?_⟩
  injection h3

/-- Extending an instance of the pattern to a longer instance only appends
tile-code characters: every other variable run is forced by its delimiter. -/
theorem shape_append_tile (m e : PyStr) (hm : IsShape m) (hme : IsShape (m ++ e)) :
    ∀ c ∈ e, isTileChar c = true := by
  obtain ⟨ab, x3, d1, d2, d3, d4, tile, hg, rfl⟩ := hm
  obtain ⟨ab2, y3, f1, f2, f3, f4, tile2, hg2, heq⟩ := hme
  obtain ⟨-, hx3, -, -, hd1, -, hd2, -, hd3, -, hd4, -, -⟩ := hg
  obtain ⟨-, hy3, -, -, hf1, -, hf2, -, hf3, -, hf4, -, ht2⟩ := hg2
  rw [shapeOf_append] at heq
  simp only [shapeOf, List.cons.injEq] at heq
  obtain ⟨-, -, -, -, -, -, -, htail⟩ := heq
  obtain ⟨-, htail⟩ := List.append_inj htail (by rw [hx3, hy3])
  injection htail with hsep1 htail
  obtain ⟨-, htail⟩ := run_peel Char.isDigit d1 f1 'T' _ _ hd1 hf1 (by decide) htail
  obtain ⟨-, htail⟩ := run_peel Char.isDigit d2 f2 '_' _ _ hd2 hf2 (by decide) htail
  injection htail with hsep2 htail
  obtain ⟨-, htail⟩ := run_peel Char.isDigit d3 f3 '_' _ _ hd3 hf3 (by decide) htail
  injection htail with hsep3 htail
  obtain ⟨-, htail⟩ := run_peel Char.isDigit d4 f4 '_' _ _ hd4 hf4 (by decide) htail
  injection htail with hsep4 htail
  intro c hc
  exact ht2 c (by rw [← htail]; exact List.mem_append_right tile hc)

/-! ### The search over start positions -/

theorem hasMatch_iff_isSome (s : PyStr) :
    HasMatch s ↔ (matchPatternAt s).isSome := by
  constructor
  · rintro ⟨m, t, rfl, hm⟩
    rw [matchPatternAt_complete m t hm]
    rfl
  · intro h
    cases hma : matchPatternAt s with
    | none => rw [hma] at h; cases h
    | some r =>
      obtain ⟨m, rfl, hm, -⟩ := matchPatternAt_sound s r hma
      exact ⟨m, r, rfl, hm⟩

theorem searchPattern_sound :
    ∀ s m : PyStr, searchPattern s = some m → FirstMatch s m := by
  intro s
  induction s with
  | nil => intro m h; simp [searchPattern] at h
  | cons c s0 ih =>
    intro m h
    rw [searchPattern] at h
    cases hma : matchPatternAt (c :: s0) with
    | some rest =>
      rw [hma] at h
      obtain ⟨m0, hdec, hshape, hhn⟩ := matchPatternAt_sound _ _ hma
      injection h with h
      have hm0 : m = m0 := by
        rw [← h, hdec, List.length_append, Nat.add_sub_cancel, List.take_left]
      subst hm0
      refine ⟨[], rest, by rw [hdec]; rfl, hshape, ?_, ?_⟩
      · intro j hj
        simp at hj
      · intro m2 t2 hsplit hsh2
        rw [List.length_nil, List.drop_zero, hdec] at hsplit
        rcases List.append_eq_append_iff.mp hsplit with ⟨a2, ha2, hrest⟩ | ⟨c2, hc2, -⟩
        · cases a2 with
          | nil => rw [ha2, List.append_nil]
          | cons hd tl =>
            exfalso
            have htile : isTileChar hd = true := by
              refine shape_append_tile m (hd :: tl) hshape ?_ hd (by simp)
              rw [← ha2]; exact hsh2
            have hfalse : isTileChar hd = false := hhn hd (by rw [hrest]; rfl)
            rw [htile] at hfalse
            cases hfalse
        · rw [hc2, List.length_append]
          exact Nat.le_add_right _ _
    | none =>
      rw [hma] at h
      obtain ⟨pre, t, hdec, hshape, hleft, hmax⟩ := ih m h
      refine ⟨c :: pre, t, by rw [hdec]; rfl, hshape, ?_, ?_⟩
      · intro j hj
        cases j with
        | zero =>
          rw [List.drop_zero]
          intro hhm
          rw [hasMatch_iff_isSome, hma] at hhm
          cases hhm
        | succ j2 =>
          rw [List.drop_succ_cons]
          exact hleft j2 (by simpa using Nat.lt_of_succ_lt_succ (by simpa using hj))
      · intro m2 t2 hsplit hsh2
        rw [List.length_cons, List.drop_succ_cons] at hsplit
        exact hmax m2 t2 hsplit hsh2

theorem searchPattern_none :
    ∀ s : PyStr, searchPattern s = none → ∀ j, ¬ HasMatch (s.drop j) := by
  intro s
  induction s with
  | nil =>
    intro h j hm
    obtain ⟨m, t, heq, hsh⟩ := hm
    rw [List.drop_nil] at heq
    exact shape_ne_nil m hsh (List.append_eq_nil.mp heq.symm).1
  | cons c s0 ih =>
    intro h j
    rw [searchPattern] at h
    cases hma : matchPatternAt (c :: s0) with
    | some rest => rw [hma] at h; cases h
    | none =>
      rw [hma] at h
      cases j with
      | zero =>
        rw [List.drop_zero]
        intro hm
        rw [hasMatch_iff_isSome, hma] at hm
        cases hm
      | succ j2 =>
        rw [List.drop_succ_cons]
        exact ih h j2

/-! ### Helper lemmas on the download loops -/

theorem downloadLoop_append (target : PyStr) (fs : FS) (l1 l2 : List S3Object) :
    downloadLoop target fs (l1 ++ l2) =
      match downloadLoop target fs l1 with
      | (fs1, none) => downloadLoop target fs1 l2
      | (fs1, some e) => (fs1, some e) := by
  induction l1 generalizing fs with
  | nil => simp [downloadLoop]
  | cons o rest ih =>
    simp only [List.cons_append, downloadLoop]
    rcases downloadObject fs target o with ⟨fs1, e?⟩
    cases e? with
    | none => exact ih fs1
    | some e => rfl

theorem occurrence_iff_hasMatch (path : PyStr) :
    (∃ pre m t, path = pre ++ m ++ t ∧ IsShape m) ↔
      ∃ j, HasMatch (path.drop j) := by
  constructor
  · rintro ⟨pre, m, t, rfl, hm⟩
    refine ⟨pre.length, m, t, ?_, hm⟩
    rw [List.append_assoc, List.drop_left]
  · rintro ⟨j, m, t, hdec, hm⟩
    refine ⟨path.take j, m, t, ?_, hm⟩
    rw [List.append_assoc, ← hdec, List.take_append_drop]

/-! ### The claims -/

/-- C1: for every path in which the fixed Sentinel-2 naming pattern
occurs, `extract_imagename` returns exactly the matched substring (the
leftmost-greedy match); for every path in which it does not occur, it
raises `ValueError`, and inside the prefix downloader this error aborts
the object loop immediately, leaving the filesystem untouched for that
object and skipping all remaining objects. -/
theorem C1_extract_imagename (path : PyStr) :
    (∀ m, extract_imagename path = Except.ok m → FirstMatch path m)
    ∧ ((∃ pre m t, path = pre ++ m ++ t ∧ IsShape m) →
        ∃ m, extract_imagename path = Except.ok m)
    ∧ (extract_imagename path = Except.error (PyError.valueError noMatchMsg) ↔
        ¬ ∃ pre m t, path = pre ++ m ++ t ∧ IsShape m)
    ∧ (∀ (e : PyError) (fs : FS) (target : PyStr) (o : S3Object) (rest : List S3Object),
        extract_imagename o.key = Except.error e →
        downloadLoop target fs (o :: rest) = (fs, some e)) := by
  refine ⟨?_, ?_, ?_, ?_⟩
  · intro m h
    cases hsp : searchPattern path with
    | none =>
      simp only [extract_imagename, hsp] at h
      cases h
    | some m0 =>
      simp only [extract_imagename, hsp, Except.ok.injEq] at h
      subst h
      exact searchPattern_sound path m0 hsp
  · intro hocc
    obtain ⟨j, hj⟩ := (occurrence_iff_hasMatch path).mp hocc
    cases hsp : searchPattern path with
    | none => exact absurd hj (searchPattern_none path hsp j)
    | some m0 => exact ⟨m0, by simp only [extract_imagename, hsp]⟩
  · constructor
    · intro herr hocc
      obtain ⟨j, hj⟩ := (occurrence_iff_hasMatch path).mp hocc
      cases hsp : searchPattern path with
      | none => exact searchPattern_none path hsp j hj
      | some m0 =>
        simp only [extract_imagename, hsp] at herr
        cases herr
    · intro hnocc
      cases hsp : searchPattern path with
      | none => simp only [extract_imagename, hsp]
      | some m0 =>
        exfalso
        obtain ⟨pre, t, hdec, hm, -, -⟩ := searchPattern_sound path m0 hsp
        exact hnocc ⟨pre, m0, t, hdec, hm⟩
  · intro e fs target o rest he
    simp only [downloadLoop, downloadObject, he]

/-- C1 witness: on the spec's positive example the extraction returns the
image name and it is the leftmost-greedy match; on the spec's negative
example the `ValueError` aborts a download loop at once. -/
theorem C1_witness :
    FirstMatch "a/S2A_MSIL1C_20240430T000000_N0500_R001_T16QCD.SAFE/b".data
      "S2A_MSIL1C_20240430T000000_N0500_R001_T16QCD".data
    ∧ downloadLoop "out".data { dirs := [], files := [] }
        [{ key := "foo/bar.jp2".data, content := some "x".data }]
      = ({ dirs := [], files := [] }, some (PyError.valueError noMatchMsg)) :=
  ⟨(C1_extract_imagename _).1 _ (by decide),
   (C1_extract_imagename "foo/bar.jp2".data).2.2.2 _ _ _ _ _ (by decide)⟩

/-- C2 counterexample: stripping `/eodata/` is not idempotent on a path
that starts with the prefix doubled — the second application strips again. -/
theorem C2_counterexample :
    remove_prefix ( remove_prefix "/eodata//eodata/".data eodata) eodata
      ≠ remove_prefix "/eodata//eodata/".data eodata := by
  decide

/-- C2 (amended): stripping `/eodata/` leaves a string without that prefix
unchanged, and applying it twice equals applying it once for every string
that does not start with the doubled prefix `/eodata//eodata/`. -/
theorem C2_remove_prefix_amended (s : PyStr) :
    (eodata.isPrefixOf s = false → remove_prefix s eodata = s)
    ∧ ("/eodata//eodata/".data.isPrefixOf s = false →
        remove_prefix ( remove_prefix s eodata) eodata = remove_prefix s eodata) := by
  constructor
  · intro h
    simp [ remove_prefix, h]
  · intro h2
    by_cases h1 : eodata.isPrefixOf s = true
    · obtain ⟨u, rfl⟩ := List.isPrefixOf_iff_prefix.mp h1
      have hs : remove_prefix (eodata ++ u) eodata = u := by
        have hp : eodata.isPrefixOf (eodata ++ u) = true :=
          List.isPrefixOf_iff_prefix.mpr (List.prefix_append eodata u)
        simp only [ remove_prefix, hp, if_true]
        exact List.drop_left eodata u
      rw [hs]
      have hu : eodata.isPrefixOf u = false := by
        by_contra hc
        obtain ⟨v, rfl⟩ :=
          List.isPrefixOf_iff_prefix.mp (eq_true_of_ne_false hc)
        have hdouble : "/eodata//eodata/".data = eodata ++ eodata := by decide
        have : "/eodata//eodata/".data.isPrefixOf (eodata ++ (eodata ++ v)) = true := by
          rw [hdouble, ← List.append_assoc]
          exact List.isPrefixOf_iff_prefix.mpr (List.prefix_append _ v)
        rw [this] at h2
        cases h2
      simp [ remove_prefix, hu]
    · have h1f : eodata.isPrefixOf s = false := by
        cases hb : eodata.isPrefixOf s
        · rfl
        · exact absurd hb h1
      simp [ remove_prefix, h1f]

/-- C2 witness: the amended statement applied at concrete inputs — a
string lacking the prefix is returned unchanged, and one application of
the stripper on a single-prefix path is already a fixed point. -/
theorem C2_witness :
    remove_prefix "a/b".data eodata = "a/b".data
    ∧ remove_prefix ( remove_prefix "/eodata/a".data eodata) eodata
        = remove_prefix "/eodata/a".data eodata :=
  ⟨(C2_remove_prefix_amended "a/b".data).1 (by decide),
   (C2_remove_prefix_amended "/eodata/a".data).2 (by decide)⟩

/-- C5: a prefix whose listing is empty makes `download` raise
`FileNotFoundError` with the filesystem returned exactly as it was — no
directory is created and no file is written before the check. -/
theorem C5_empty_listing (bucket : List S3Object) (product target : PyStr) (fs : FS)
    (h : listObjects bucket product = []) :
    download bucket product target fs =
      (fs, some (PyError.fileNotFoundError
        ("No se encontraron archivos para ".data ++ product))) := by
  simp [download, h]

/-- C5 witness: an empty bucket yields the not-found error and an
unchanged filesystem. -/
theorem C5_witness :
    download [] "Sentinel-2/x".data "out".data { dirs := [], files := [] }
      = ({ dirs := [], files := [] },
         some (PyError.fileNotFoundError
           ("No se encontraron archivos para ".data ++ "Sentinel-2/x".data))) :=
  C5_empty_listing [] "Sentinel-2/x".data "out".data { dirs := [], files := [] } rfl

/-- C3: the query string is a pure function of the arguments (it is a
function of them by construction) decomposing as the fixed base, the
spatial-intersection clause, the strict `gt` lower bound on the content
start time, the strict `lt` upper bound, and the collection equality
clause; supplying `cloud_cover` appends exactly one additional clause and
supplying `product_type` appends exactly one additional clause, each
contributed independently of the other's presence. -/
theorem C3_query_clauses (start_date end_date polygon collection : PyStr)
    (cloud_cover : Option Int) (product_type : Option PyStr) (srid : PyStr) :
    get_copernicus_query start_date end_date polygon collection cloud_cover
        product_type srid
      = filter_base ++ intersects_clause polygon srid ++ start_gt_clause start_date
        ++ end_lt_clause end_date ++ collection_clause collection
        ++ opt_clause cloud_cover_clause cloud_cover
        ++ opt_clause product_type_clause product_type := by
  cases cloud_cover with
  | none =>
    cases product_type with
    | none =>
      simp [get_copernicus_query, filter_base, intersects_clause, start_gt_clause,
        end_lt_clause, collection_clause, opt_clause, List.append_assoc]
    | some pt =>
      simp [get_copernicus_query, filter_base, intersects_clause, start_gt_clause,
        end_lt_clause, collection_clause, opt_clause, product_type_clause,
        List.append_assoc]
  | some cc =>
    cases product_type with
    | none =>
      simp [get_copernicus_query, filter_base, intersects_clause, start_gt_clause,
        end_lt_clause, collection_clause, opt_clause, cloud_cover_clause,
        List.append_assoc]
    | some pt =>
      simp [get_copernicus_query, filter_base, intersects_clause, start_gt_clause,
        end_lt_clause, collection_clause, opt_clause, cloud_cover_clause,
        product_type_clause, List.append_assoc]

/-- C9: when the response's `value` array is empty, the metadata function
does not raise: it returns the empty table together with the non-fatal
"nothing found" report. -/
theorem C9_empty_value (start_date end_date polygon collection : PyStr)
    (cloud_cover : Option Int) (product_type : Option PyStr) (srid : PyStr)
    (response : PyStr → Option (List Row))
    (h : response (get_copernicus_query start_date end_date polygon collection
        cloud_cover product_type srid) = some []) :
    get_copernicus_image_metadata start_date end_date polygon collection
        cloud_cover product_type srid response
      = Except.ok ([], [noImagesMsg]) := by
  simp [get_copernicus_image_metadata, h]

/-- C9 witness: a stubbed HTTP layer answering an empty `value` array. -/
theorem C9_witness :
    get_copernicus_image_metadata [] [] [] [] none none []
        (fun _ => some ([] : List Row))
      = Except.ok ([], [noImagesMsg]) :=
  C9_empty_value [] [] [] [] none none [] (fun _ => some []) rfl

/-- C4: an exception raised while downloading a row's prefix is caught:
the loop logs the progress line and then the error line holding the
stripped path and the error's message, and continues with the remaining
rows from the filesystem state the failed download left behind — no
row's failure aborts the batch. -/
theorem C4_row_failure_continues (bucket : List S3Object) (target : PyStr)
    (st : RunState) (idx : Nat) (s3path : PyStr) (rows : List PyStr)
    (fs1 : FS) (e : PyError)
    (h : download bucket ( remove_prefix s3path eodata) target st.fs = (fs1, some e)) :
    downloadRows bucket target idx st (s3path :: rows)
      = downloadRows bucket target (idx + 1)
          { fs := fs1,
            log := st.log ++ [progressMsg ( remove_prefix s3path eodata) idx,
              errorMsg ( remove_prefix s3path eodata) e] } rows := by
  simp only [downloadRows, processRow, h]
  simp [List.append_assoc]

/-- C4 witness: in a three-row table whose middle row's prefix lists no
objects, the middle row's failure is logged and the loop moves on, and in
the full run rows one and three are still downloaded in full — their
files are on disk afterwards. -/
theorem C4_witness :
    downloadRows
        [{ key := "p1/S2A_MSIL1C_20240430T000000_N0500_R001_T16QCD.SAFE/a.jp2".data,
           content := some "da".data },
         { key := "p3/S2B_MSIL1C_20240430T153609_N0510_R110_T17QKA.SAFE/b.jp2".data,
           content := some "db".data }]
        "out".data 1
        { fs := { dirs := ["out/S2A_MSIL1C_20240430T000000_N0500_R001_T16QCD".data],
                  files := [("out/S2A_MSIL1C_20240430T000000_N0500_R001_T16QCD/a.jp2".data,
                    "da".data)] },
          log := [progressMsg "p1/".data 0] }
        ["p2/".data, "p3/".data]
      = downloadRows
          [{ key := "p1/S2A_MSIL1C_20240430T000000_N0500_R001_T16QCD.SAFE/a.jp2".data,
             content := some "da".data },
           { key := "p3/S2B_MSIL1C_20240430T153609_N0510_R110_T17QKA.SAFE/b.jp2".data,
             content := some "db".data }]
          "out".data (1 + 1)
          { fs := { dirs := ["out/S2A_MSIL1C_20240430T000000_N0500_R001_T16QCD".data],
                    files := [("out/S2A_MSIL1C_20240430T000000_N0500_R001_T16QCD/a.jp2".data,
                      "da".data)] },
            log := [progressMsg "p1/".data 0]
              ++ [progressMsg ( remove_prefix "p2/".data eodata) 1,
                errorMsg ( remove_prefix "p2/".data eodata)
                  (PyError.fileNotFoundError
                    ("No se encontraron archivos para ".data ++ "p2/".data))] }
          ["p3/".data]
    ∧ fileContents
        (downloadRows
          [{ key := "p1/S2A_MSIL1C_20240430T000000_N0500_R001_T16QCD.SAFE/a.jp2".data,
             content := some "da".data },
           { key := "p3/S2B_MSIL1C_20240430T153609_N0510_R110_T17QKA.SAFE/b.jp2".data,
             content := some "db".data }]
          "out".data 0
          { fs := { dirs := [], files := [] }, log := [] }
          ["p1/".data, "p2/".data, "p3/".data]).fs
        "out/S2A_MSIL1C_20240430T000000_N0500_R001_T16QCD/a.jp2".data = some "da".data
    ∧ fileContents
        (downloadRows
          [{ key := "p1/S2A_MSIL1C_20240430T000000_N0500_R001_T16QCD.SAFE/a.jp2".data,
             content := some "da".data },
           { key := "p3/S2B_MSIL1C_20240430T153609_N0510_R110_T17QKA.SAFE/b.jp2".data,
             content := some "db".data }]
          "out".data 0
          { fs := { dirs := [], files := [] }, log := [] }
          ["p1/".data, "p2/".data, "p3/".data]).fs
        "out/S2B_MSIL1C_20240430T153609_N0510_R110_T17QKA/b.jp2".data = some "db".data :=
  ⟨C4_row_failure_continues _ _ _ 1 "p2/".data ["p3/".data] _
      (PyError.fileNotFoundError
        ("No se encontraron archivos para ".data ++ "p2/".data)) (by decide),
   by decide, by decide⟩

theorem fileContents_writeFile_self (fs : FS) (p data : PyStr) :
    fileContents (writeFile fs p data) p = some data := by
  simp [fileContents, writeFile, List.find?]

theorem fileContents_writeFile_ne (fs : FS) (p data q : PyStr) (h : q ≠ p) :
    fileContents (writeFile fs p data) q = fileContents fs q := by
  have hb : (p == q) = false := by
    cases hpq : p == q
    · rfl
    · exact absurd (eq_of_beq hpq).symm h
  simp [fileContents, writeFile, List.find?, hb]

/-- C6: the per-object loop of `download` catches nothing: when the
listing is `good ++ o :: rest` and the objects in `good` all succeed but
`o`'s download raises, the exception propagates out of `download` with
the filesystem as `o`'s failure left it, every object in `rest` is
skipped — and one level up, the row loop logs the error and still
proceeds with the subsequent rows. -/
theorem C6_object_failure_propagates :
    (∀ (fs fs1 fs2 : FS) (target : PyStr) (good : List S3Object) (o : S3Object)
        (rest : List S3Object) (e : PyError),
      downloadLoop target fs good = (fs1, none) →
      downloadObject fs1 target o = (fs2, some e) →
      downloadLoop target fs (good ++ o :: rest) = (fs2, some e))
    ∧ (∀ (bucket : List S3Object) (product target : PyStr) (fs fs1 fs2 : FS)
        (good : List S3Object) (o : S3Object) (rest : List S3Object) (e : PyError),
      listObjects bucket product = good ++ o :: rest →
      downloadLoop target fs good = (fs1, none) →
      downloadObject fs1 target o = (fs2, some e) →
      download bucket product target fs = (fs2, some e))
    ∧ (∀ (bucket : List S3Object) (target : PyStr) (st : RunState) (idx : Nat)
        (s3path : PyStr) (rows : List PyStr) (fs2 : FS) (e : PyError),
      download bucket ( remove_prefix s3path eodata) target st.fs = (fs2, some e) →
      downloadRows bucket target idx st (s3path :: rows)
        = downloadRows bucket target (idx + 1)
            { fs := fs2,
              log := st.log ++ [progressMsg ( remove_prefix s3path eodata) idx,
                errorMsg ( remove_prefix s3path eodata) e] } rows) := by
  have hloop : ∀ (fs fs1 fs2 : FS) (target : PyStr) (good : List S3Object)
      (o : S3Object) (rest : List S3Object) (e : PyError),
      downloadLoop target fs good = (fs1, none) →
      downloadObject fs1 target o = (fs2, some e) →
      downloadLoop target fs (good ++ o :: rest) = (fs2, some e) := by
    intro fs fs1 fs2 target good o rest e h1 h2
    rw [downloadLoop_append, h1]
    simp only [downloadLoop, h2]
  refine ⟨hloop, ?_, ?_⟩
  · intro bucket product target fs fs1 fs2 good o rest e hlist h1 h2
    have hne : (good ++ o :: rest).isEmpty = false := by
      cases good <;> rfl
    simp only [download, hlist, hne, Bool.false_eq_true, if_false]
    exact hloop fs fs1 fs2 target good o rest e h1 h2
  · intro bucket target st idx s3path rows fs2 e h
    simp only [downloadRows, processRow, h]
    simp [List.append_assoc]

/-- C6 witness: a two-object listing where the second object's byte
download raises — the first object's file is on disk, the loop stops with
the error, a third object would be skipped, and the row loop goes on. -/
theorem C6_witness :
    download
        [{ key := "p/S2A_MSIL1C_20240430T000000_N0500_R001_T16QCD.SAFE/a.jp2".data,
           content := some "da".data },
         { key := "p/S2A_MSIL1C_20240430T000000_N0500_R001_T16QCD.SAFE/b.jp2".data,
           content := none },
         { key := "p/S2A_MSIL1C_20240430T000000_N0500_R001_T16QCD.SAFE/c.jp2".data,
           content := some "dc".data }]
        "p/".data "out".data { dirs := [], files := [] }
      = ({ dirs := ["out/S2A_MSIL1C_20240430T000000_N0500_R001_T16QCD".data],
           files := [("out/S2A_MSIL1C_20240430T000000_N0500_R001_T16QCD/a.jp2".data,
             "da".data)] },
         some (PyError.downloadError
           "p/S2A_MSIL1C_20240430T000000_N0500_R001_T16QCD.SAFE/b.jp2".data)) :=
  (C6_object_failure_propagates).2.1
    [{ key := "p/S2A_MSIL1C_20240430T000000_N0500_R001_T16QCD.SAFE/a.jp2".data,
       content := some "da".data },
     { key := "p/S2A_MSIL1C_20240430T000000_N0500_R001_T16QCD.SAFE/b.jp2".data,
       content := none },
     { key := "p/S2A_MSIL1C_20240430T000000_N0500_R001_T16QCD.SAFE/c.jp2".data,
       content := some "dc".data }]
    "p/".data "out".data { dirs := [], files := [] }
    { dirs := ["out/S2A_MSIL1C_20240430T000000_N0500_R001_T16QCD".data],
      files := [("out/S2A_MSIL1C_20240430T000000_N0500_R001_T16QCD/a.jp2".data,
        "da".data)] }
    { dirs := ["out/S2A_MSIL1C_20240430T000000_N0500_R001_T16QCD".data],
      files := [("out/S2A_MSIL1C_20240430T000000_N0500_R001_T16QCD/a.jp2".data,
        "da".data)] }
    [{ key := "p/S2A_MSIL1C_20240430T000000_N0500_R001_T16QCD.SAFE/a.jp2".data,
       content := some "da".data }]
    { key := "p/S2A_MSIL1C_20240430T000000_N0500_R001_T16QCD.SAFE/b.jp2".data,
      content := none }
    [{ key := "p/S2A_MSIL1C_20240430T000000_N0500_R001_T16QCD.SAFE/c.jp2".data,
       content := some "dc".data }]
    (PyError.downloadError
      "p/S2A_MSIL1C_20240430T000000_N0500_R001_T16QCD.SAFE/b.jp2".data)
    (by decide) (by decide) (by decide)

/-- C7: for an object whose key matches the pattern and whose bytes are
available, the loop body creates the subdirectory `<target>/<image name>`
(idempotently: if it already exists the directories are unchanged), and
writes the object's bytes at `<target>/<image name>/<basename(key)>`,
overwriting whatever was there, while every other path keeps its previous
content. -/
theorem C7_object_write (fs : FS) (target : PyStr) (o : S3Object)
    (name data : PyStr)
    (h1 : extract_imagename o.key = Except.ok name) (h2 : o.content = some data) :
    (downloadObject fs target o).2 = none
    ∧ path_join target name ∈ (downloadObject fs target o).1.dirs
    ∧ (path_join target name ∈ fs.dirs → (downloadObject fs target o).1.dirs = fs.dirs)
    ∧ fileContents (downloadObject fs target o).1
        (path_join (path_join target name) (basename o.key)) = some data
    ∧ (∀ q, q ≠ path_join (path_join target name) (basename o.key) →
        fileContents (downloadObject fs target o).1 q = fileContents fs q) := by
  have hred : downloadObject fs target o
      = (writeFile (makedirs fs (path_join target name))
          (path_join (path_join target name) (basename o.key)) data, none) := by
    simp only [downloadObject, h1, h2]
  rw [hred]
  refine ⟨rfl, ?_, ?_, ?_, ?_⟩
  · by_cases hmem : path_join target name ∈ fs.dirs
    · simp [writeFile, makedirs, hmem]
    · simp [writeFile, makedirs, hmem]
  · intro hmem
    simp [writeFile, makedirs, hmem]
  · exact fileContents_writeFile_self _ _ _
  · intro q hq
    rw [fileContents_writeFile_ne _ _ _ _ hq]
    by_cases hmem : path_join target name ∈ fs.dirs
    · simp [fileContents, makedirs, hmem]
    · simp [fileContents, makedirs, hmem]

/-- C7 witness: the spec's end-to-end scenario — one row whose `S3Path`
is the `/eodata/`-prefixed key of a single stored object, downloaded to
target `out/`, puts the object's bytes at
`out/S2B_MSIL1C_20240430T153609_N0510_R110_T17QKA/file1.jp2`; the loop
body reports exactly that write. -/
theorem C7_witness :
    fileContents
      (downloadObject { dirs := [], files := [] } "out/".data
        { key := "Sentinel-2/MSI/L1C/2024/04/30/S2B_MSIL1C_20240430T153609_N0510_R110_T17QKA.SAFE/file1.jp2".data,
          content := some "bytes".data }).1
      "out/S2B_MSIL1C_20240430T153609_N0510_R110_T17QKA/file1.jp2".data
      = some "bytes".data
    ∧ fileContents
        (download_copernicus_images
          (fun _ =>
            [{ key := "Sentinel-2/MSI/L1C/2024/04/30/S2B_MSIL1C_20240430T153609_N0510_R110_T17QKA.SAFE/file1.jp2".data,
               content := some "bytes".data }])
          ["/eodata/Sentinel-2/MSI/L1C/2024/04/30/S2B_MSIL1C_20240430T153609_N0510_R110_T17QKA.SAFE/file1.jp2".data]
          0 "out/".data { dirs := [], files := [] }).fs
        "out/S2B_MSIL1C_20240430T153609_N0510_R110_T17QKA/file1.jp2".data
      = some "bytes".data :=
  ⟨(C7_object_write { dirs := [], files := [] } "out/".data
      { key := "Sentinel-2/MSI/L1C/2024/04/30/S2B_MSIL1C_20240430T153609_N0510_R110_T17QKA.SAFE/file1.jp2".data,
        content := some "bytes".data }
      "S2B_MSIL1C_20240430T153609_N0510_R110_T17QKA".data "bytes".data
      (by decide) rfl).2.2.2.1,
   by decide⟩

/-- C10: the abort on a pattern-matching failure is not atomic — with a
listing `good ++ bad :: rest` whose objects in `good` succeed and whose
`bad` key does not match the pattern, the loop stops in exactly the state
the `good` downloads produced (their files remain), while for `bad`
itself no directory is created and no file is written: extraction happens
before any filesystem effect for that object. -/
theorem C10_nonatomic_abort :
    (∀ (fs fs1 : FS) (target : PyStr) (good : List S3Object) (bad : S3Object)
        (rest : List S3Object) (e : PyError),
      downloadLoop target fs good = (fs1, none) →
      extract_imagename bad.key = Except.error e →
      downloadLoop target fs (good ++ bad :: rest) = (fs1, some e))
    ∧ (∀ (fs : FS) (target : PyStr) (o : S3Object) (e : PyError),
      extract_imagename o.key = Except.error e →
      downloadObject fs target o = (fs, some e)) := by
  have hobj : ∀ (fs : FS) (target : PyStr) (o : S3Object) (e : PyError),
      extract_imagename o.key = Except.error e →
      downloadObject fs target o = (fs, some e) := by
    intro fs target o e he
    simp only [downloadObject, he]
  refine ⟨?_, hobj⟩
  intro fs fs1 target good bad rest e h1 h2
  rw [downloadLoop_append, h1]
  simp only [downloadLoop, hobj fs1 target bad e h2]

/-- C10 witness: a listing whose first object downloads fine and whose
second key does not match — the first object's file is on disk and
remains, the second adds nothing, the loop returns the `ValueError`. -/
theorem C10_witness :
    downloadLoop "out".data { dirs := [], files := [] }
        [{ key := "p/S2A_MSIL1C_20240430T000000_N0500_R001_T16QCD.SAFE/a.jp2".data,
           content := some "da".data },
         { key := "p/readme.txt".data, content := some "x".data },
         { key := "p/S2A_MSIL1C_20240430T000000_N0500_R001_T16QCD.SAFE/c.jp2".data,
           content := some "dc".data }]
      = ({ dirs := ["out/S2A_MSIL1C_20240430T000000_N0500_R001_T16QCD".data],
           files := [("out/S2A_MSIL1C_20240430T000000_N0500_R001_T16QCD/a.jp2".data,
             "da".data)] },
         some (PyError.valueError noMatchMsg)) :=
  (C10_nonatomic_abort).1 { dirs := [], files := [] }
    { dirs := ["out/S2A_MSIL1C_20240430T000000_N0500_R001_T16QCD".data],
      files := [("out/S2A_MSIL1C_20240430T000000_N0500_R001_T16QCD/a.jp2".data,
        "da".data)] }
    "out".data
    [{ key := "p/S2A_MSIL1C_20240430T000000_N0500_R001_T16QCD.SAFE/a.jp2".data,
       content := some "da".data }]
    { key := "p/readme.txt".data, content := some "x".data }
    [{ key := "p/S2A_MSIL1C_20240430T000000_N0500_R001_T16QCD.SAFE/c.jp2".data,
       content := some "dc".data }]
    (PyError.valueError noMatchMsg)
    (by decide) (by decide)

theorem isProgress_progressMsg (p : PyStr) (idx : Nat) :
    isProgress (progressMsg p idx) = true := by
  rw [isProgress, List.isPrefixOf_iff_prefix, progressMsg]
  refine ⟨p ++ " (renglón ".data ++ (toString idx).data ++ ")...".data, ?_⟩
  simp [List.append_assoc]

theorem isProgress_errorMsg (p : PyStr) (e : PyError) :
    isProgress (errorMsg p e) = false := rfl

theorem processRow_filter (bucket : List S3Object) (target : PyStr)
    (st : RunState) (idx : Nat) (p : PyStr) :
    ((processRow bucket target st idx p).log).filter isProgress
      = st.log.filter isProgress ++ [progressMsg ( remove_prefix p eodata) idx] := by
  simp only [processRow]
  rcases hdl : download bucket ( remove_prefix p eodata) target st.fs with ⟨fs1, e?⟩
  cases e? with
  | none => simp [List.filter_append, isProgress_progressMsg]
  | some e =>
    simp [List.filter_append, isProgress_progressMsg, isProgress_errorMsg]

theorem downloadRows_filter (bucket : List S3Object) (target : PyStr) :
    ∀ (rows : List PyStr) (idx : Nat) (st : RunState),
      ((downloadRows bucket target idx st rows).log).filter isProgress
        = st.log.filter isProgress ++ expected_progress idx rows := by
  intro rows
  induction rows with
  | nil => intro idx st; simp [downloadRows, expected_progress]
  | cons p rest ih =>
    intro idx st
    simp only [downloadRows, expected_progress]
    rw [ih (idx + 1) (processRow bucket target st idx p), processRow_filter]
    simp [List.append_assoc]

theorem expected_progress_length :
    ∀ (rows : List PyStr) (i : Nat), (expected_progress i rows).length = rows.length := by
  intro rows
  induction rows with
  | nil => intro i; rfl
  | cons p rest ih => intro i; simp [expected_progress, ih]

theorem expected_progress_get? :
    ∀ (rows : List PyStr) (i j : Nat),
      (expected_progress i rows).get? j
        = (rows.get? j).map (fun p => progressMsg ( remove_prefix p eodata) (i + j)) := by
  intro rows
  induction rows with
  | nil => intro i j; simp [expected_progress]
  | cons p rest ih =>
    intro i j
    cases j with
    | zero => simp [expected_progress]
    | succ j2 =>
      simp only [expected_progress, List.get?]
      rw [ih (i + 1) j2, show i + 1 + j2 = i + (j2 + 1) from by omega]

/-- C8: the row loop processes exactly the rows from positional index
`start_row` (inclusive) through the last row, in table order: the
progress lines of a run are, in order, one line per row of
`df.drop start_row`, there are `df.length - start_row` of them, and the
line printed for the table's `i`-th row (any `i ≥ start_row`) reports the
row's original positional index `i`, not an index relative to
`start_row`; rows before `start_row` contribute nothing. -/
theorem C8_rows_processed (s3 : PyStr → List S3Object) (df : List PyStr)
    (start_row : Nat) (target_directory : PyStr) (fs : FS) :
    ((download_copernicus_images s3 df start_row target_directory fs).log).filter isProgress
      = expected_progress start_row (df.drop start_row)
    ∧ (((download_copernicus_images s3 df start_row target_directory fs).log).filter
        isProgress).length = df.length - start_row
    ∧ (∀ i, start_row ≤ i → i < df.length →
        (((download_copernicus_images s3 df start_row target_directory fs).log).filter
            isProgress).get? (i - start_row)
          = some (progressMsg ( remove_prefix (df.getD i []) eodata) i)) := by
  have hmain : ((download_copernicus_images s3 df start_row target_directory fs).log).filter
      isProgress = expected_progress start_row (df.drop start_row) := by
    simp only [download_copernicus_images]
    rw [downloadRows_filter]
    rfl
  refine ⟨hmain, ?_, ?_⟩
  · rw [hmain, expected_progress_length, List.length_drop]
  · intro i h1 h2
    rw [hmain, expected_progress_get?, List.get?_drop]
    have hi : start_row + (i - start_row) = i := by omega
    rw [hi, List.get?_eq_get h2]
    have hgd : df.getD i [] = df.get ⟨i, h2⟩ := by
      rw [List.getD_eq_get?, List.get?_eq_get h2]
      rfl
    rw [hgd]
    rfl

/-- C8 witness: a three-row table started at row 1 — the progress lines
are exactly those of rows 1 and 2, and the line for the table's row 2 (at
offset 1 of the output) reports index 2. -/
theorem C8_witness :
    ((download_copernicus_images (fun _ => []) ["a".data, "b".data, "c".data] 1
        "out".data { dirs := [], files := [] }).log).filter isProgress
      = expected_progress 1 ["b".data, "c".data]
    ∧ (((download_copernicus_images (fun _ => []) ["a".data, "b".data, "c".data] 1
        "out".data { dirs := [], files := [] }).log).filter isProgress).get? (2 - 1)
      = some (progressMsg "c".data 2) :=
  ⟨(C8_rows_processed (fun _ => []) ["a".data, "b".data, "c".data] 1 "out".data
      { dirs := [], files := [] }).1,
   (C8_rows_processed (fun _ => []) ["a".data, "b".data, "c".data] 1 "out".data
      { dirs := [], files := [] }).2.2 2 (by decide) (by decide)⟩

end S2
